import Mathlib

/-!
Shallow embedding of the gopt repository: a Go `Option[T]` type (a struct of
an unexported `value : T` and an unexported presence flag `ok : Bool`),
its constructors, methods, free-function combinators, and the JSON
(de)serialization adapter.  Go byte slices are embedded as `List Nat`,
Go's nil-able `error` as Lean's `Option E`, the zero value of a Go type
as `default` of an `Inhabited` instance, and a Go panic as the `error`
branch of `Except String`.  Caller-supplied codec functions
(`func(T) ([]byte, error)` and `func([]byte, *T) error`) are embedded as
`T → List Nat × Option E` and `List Nat → T → T × Option E`: the returned
`T` is the final state of the pointed-to target, which accounts for
partial writes by a failing decoder.
-/

namespace Gopt

/-- Embeds the Go struct `Option[T]` of src/option.go: field `value : T`
then field `ok : Bool`. -/
structure Opt (T : Type) where
  value : T
  ok : Bool

deriving instance DecidableEq for Opt

deriving instance Repr for Opt

/-- The zero value of the Go struct `Option[T]`: zero value of `T` and `false`. -/
instance {T : Type} [Inhabited T] : Inhabited (Opt T) := ⟨⟨default, false⟩⟩

/-- Embeds `Some` of src/constructors.go: `Option[T]{value: v, ok: true}`. -/
def Some {T : Type} (v : T) : Opt T := ⟨v, true⟩

/-- Embeds `None` of src/constructors.go: `Option[T]{ok: false}`, whose
`value` field is the zero value of `T`. -/
def None (T : Type) [Inhabited T] : Opt T := ⟨default, false⟩

/-- Embeds `FromPtr` of src/constructors.go; a Go pointer that may be nil is
embedded as `Option T`. -/
def FromPtr {T : Type} [Inhabited T] (p : Option T) : Opt T :=
  match p with
  | Option.none => ⟨default, false⟩
  | Option.some v => ⟨v, true⟩

/-- Embeds `FromTuple` of src/constructors.go. -/
def FromTuple {T : Type} [Inhabited T] (v : T) (ok : Bool) : Opt T :=
  if !ok then ⟨default, false⟩ else ⟨v, true⟩

/-- Embeds `Try` of src/constructors.go; the Go `error` is `Option E`
(`none` is nil). -/
def Try {T E : Type} [Inhabited T] (v : T) (err : Option E) : Opt T :=
  if err.isSome then ⟨default, false⟩ else ⟨v, true⟩

/-- Embeds `Cond` of src/constructors.go. -/
def Cond {T : Type} [Inhabited T] (ok : Bool) (v : T) : Opt T :=
  if !ok then ⟨default, false⟩ else ⟨v, true⟩

/-- Embeds the method `IsSome` of src/option.go. -/
def Opt.IsSome {T : Type} (o : Opt T) : Bool := o.ok

/-- Embeds the method `IsNone` of src/option.go. -/
def Opt.IsNone {T : Type} (o : Opt T) : Bool := !o.ok

/-- Embeds the method `Get` of src/option.go: `return o.value, o.ok`. -/
def Opt.Get {T : Type} (o : Opt T) : T × Bool := (o.value, o.ok)

/-- Embeds the method `Unwrap` of src/option.go; the Go panic is the
`Except.error` branch carrying the panic message. -/
def Opt.Unwrap {T : Type} (o : Opt T) : Except String T :=
  if !o.ok then Except.error "gopt: Unwrap called on None" else Except.ok o.value

/-- Embeds the method `UnwrapOr` of src/option.go. -/
def Opt.UnwrapOr {T : Type} (o : Opt T) (defaultVal : T) : T :=
  if o.ok then o.value else defaultVal

/-- Embeds the method `Filter` of src/option.go:
`if !o.ok || !pred(o.value) { return None[T]() }; return o`. -/
def Opt.Filter {T : Type} [Inhabited T] (o : Opt T) (pred : T → Bool) : Opt T :=
  if !o.ok || !pred o.value then None T else o

/-- Embeds the method `Or` of src/option.go. -/
def Opt.Or {T : Type} (o other : Opt T) : Opt T :=
  if o.ok then o else other

/-- Embeds the method `OrElse` of src/option.go; the nullary Go closure is
`Unit → Opt T`. -/
def Opt.OrElse {T : Type} (o : Opt T) (fn : Unit → Opt T) : Opt T :=
  if o.ok then o else fn ()

/-- Embeds the method `Tap` of src/option.go: returns the option unchanged
(the callback's side effect has no value-level content here). -/
def Opt.Tap {T : Type} (o : Opt T) (_fn : T → Unit) : Opt T := o

/-- Embeds the free function `Map` of src/option_funcs.go. -/
def Map {T U : Type} [Inhabited U] (o : Opt T) (fn : T → U) : Opt U :=
  if !o.ok then None U else Some (fn o.value)

/-- Embeds the free function `AndThen` of src/option_funcs.go. -/
def AndThen {T U : Type} [Inhabited U] (o : Opt T) (fn : T → Opt U) : Opt U :=
  if !o.ok then None U else fn o.value

/-- `AndThen` instrumented with the list of arguments the callback is applied
to, mirroring the source's control flow: the callback is reached only in the
`o.ok` branch, once, on `o.value`. -/
def AndThenCalls {T U : Type} [Inhabited U] (o : Opt T) (fn : T → Opt U) : Opt U × List T :=
  if !o.ok then (None U, []) else (fn o.value, [o.value])

/-- Embeds the free function `Filter` of src/option_funcs.go:
`return o.Filter(pred)`. -/
def Filter {T : Type} [Inhabited T] (o : Opt T) (pred : T → Bool) : Opt T :=
  o.Filter pred

/-- `Filter` instrumented with the list of arguments the predicate is applied
to, mirroring the short-circuit `!o.ok || !pred(o.value)` of the source: the
predicate is reached only when `o.ok`, once, on `o.value`. -/
def FilterCalls {T : Type} [Inhabited T] (o : Opt T) (pred : T → Bool) : Opt T × List T :=
  if !o.ok then (None T, [])
  else if !pred o.value then (None T, [o.value])
  else (o, [o.value])

/-- Embeds the free function `Or` of src/option_funcs.go: `return o.Or(other)`. -/
def Or {T : Type} (o other : Opt T) : Opt T := o.Or other

/-- Embeds the free function `OrElse` of src/option_funcs.go. -/
def OrElse {T : Type} (o : Opt T) (fn : Unit → Opt T) : Opt T := o.OrElse fn

/-- Embeds the free function `Flatten` of src/option_funcs.go. -/
def Flatten {T : Type} [Inhabited T] (o : Opt (Opt T)) : Opt T :=
  if !o.ok then None T else o.value

/-- Embeds the free function `TryMap` of src/option_funcs.go. -/
def TryMap {T U E : Type} [Inhabited U] (o : Opt T) (fn : T → U × Option E) :
    Opt U × Option E :=
  if !o.ok then (None U, Option.none)
  else
    match fn o.value with
    | (_, Option.some e) => (None U, Option.some e)
    | (u, Option.none) => (Some u, Option.none)

/-- Embeds the free function `Equals` of src/option_funcs.go; Go's native
`==` on the comparable type `T` is the parameter `eq`. -/
def Equals {T : Type} (eq : T → T → Bool) (a b : Opt T) : Bool :=
  if a.ok != b.ok then false
  else if !a.ok then true
  else eq a.value b.value

/-- Embeds the struct `Pair` of src/option_funcs.go. -/
structure Pair (A B : Type) where
  First : A
  Second : B

deriving instance DecidableEq for Pair

instance {A B : Type} [Inhabited A] [Inhabited B] : Inhabited (Pair A B) :=
  ⟨⟨default, default⟩⟩

/-- Embeds the free function `Zip` of src/option_funcs.go. -/
def Zip {T U : Type} [Inhabited T] [Inhabited U] (a : Opt T) (b : Opt U) :
    Opt (Pair T U) :=
  if !a.ok || !b.ok then None (Pair T U) else Some ⟨a.value, b.value⟩

/-- The six ASCII whitespace bytes Go's `bytes.TrimSpace` strips on its
ASCII fast path (tab, LF, VT, FF, CR, space). -/
def isSpaceByte (b : Nat) : Bool :=
  b == 9 || b == 10 || b == 11 || b == 12 || b == 13 || b == 32

/-- Embeds `bytes.TrimSpace` on ASCII input: drop whitespace bytes from both
ends. -/
def trimSpace (data : List Nat) : List Nat :=
  ((data.dropWhile isSpaceByte).reverse.dropWhile isSpaceByte).reverse

/-- The four bytes of the JSON literal `null`. -/
def nullBytes : List Nat := [110, 117, 108, 108]

/-- The guard of the serialization code:
`len(trimmed) == 0 || bytes.Equal(trimmed, []byte("null"))`. -/
def nullOrEmpty (data : List Nat) : Bool :=
  (trimSpace data).isEmpty || trimSpace data == nullBytes

/-- Embeds `MarshalOption`: None marshals to the literal `null` with no
error, Some marshals via the caller-supplied function. -/
def MarshalOption {T E : Type} (o : Opt T) (marshal : T → List Nat × Option E) :
    List Nat × Option E :=
  if !o.ok then (nullBytes, Option.none) else marshal o.value

/-- Embeds `UnmarshalOption`: trimmed-empty or `null` input gives None with
no error; otherwise the caller-supplied decoder runs on the full untrimmed
input into a zero-valued target (`var t T`), an error gives `(None, err)`,
success gives `(Some t, nil)`. -/
def UnmarshalOption {T E : Type} [Inhabited T] (data : List Nat)
    (unmarshal : List Nat → T → T × Option E) : Opt T × Option E :=
  if nullOrEmpty data then (None T, Option.none)
  else
    match unmarshal data default with
    | (_, Option.some e) => (None T, Option.some e)
    | (t, Option.none) => (Some t, Option.none)

/-- `UnmarshalOption` instrumented with the list of inputs the decoder is
applied to, mirroring the source's control flow: the decoder is reached only
past the null/empty guard, once, on the full untrimmed `data`. -/
def UnmarshalOptionCalls {T E : Type} [Inhabited T] (data : List Nat)
    (unmarshal : List Nat → T → T × Option E) : (Opt T × Option E) × List (List Nat) :=
  if nullOrEmpty data then ((None T, Option.none), [])
  else
    match unmarshal data default with
    | (_, Option.some e) => ((None T, Option.some e), [data])
    | (t, Option.none) => ((Some t, Option.none), [data])

/-- Embeds the method `MarshalJSON`; the element codec `json.Marshal` for `T`
is a parameter. -/
def Opt.MarshalJSON {T E : Type} (o : Opt T) (marshalT : T → List Nat × Option E) :
    List Nat × Option E :=
  if !o.ok then (nullBytes, Option.none) else marshalT o.value

/-- Embeds the method `UnmarshalJSON` (pointer receiver: the result is the
receiver's state after the call, paired with the returned error).  The
null/empty branch assigns the zero-valued struct.  Otherwise the source sets
`o.ok = true` and then returns `json.Unmarshal(data, &o.value)`: the element
decoder (a parameter here) reads the prior `o.value` as its target and its
returned `T` is the target's final state, so after the call `ok` is `true`
whether or not the decoder failed. -/
def Opt.UnmarshalJSON {T E : Type} [Inhabited T] (o : Opt T) (data : List Nat)
    (unmarshalT : List Nat → T → T × Option E) : Opt T × Option E :=
  if nullOrEmpty data then (⟨default, false⟩, Option.none)
  else
    match unmarshalT data o.value with
    | (v, e) => (⟨v, true⟩, e)

/-- A JSON string decoder for escape-free quoted input, standing in for
`json.Unmarshal` into a Go `string` (strings embedded as byte lists): a
leading and trailing quote byte 34 strip to the content, anything else is a
decode error. -/
def stringDecoder (data : List Nat) (t : List Nat) : List Nat × Option Unit :=
  if 2 ≤ data.length ∧ data.head? = Option.some 34 ∧ data.getLast? = Option.some 34
  then ((data.drop 1).dropLast, Option.none)
  else (t, Option.some ())

/-- A decoder that fails on every input, leaving its target unchanged. -/
def failDec : List Nat → Nat → Nat × Option Unit :=
  fun _ t => (t, Option.some ())

/-- An example codec in which a value's encoding collides with the `null`
literal: `false` encodes to the four bytes of `null`. -/
def nullEnc : Bool → List Nat × Option Unit :=
  fun v => (if v then [49] else nullBytes, Option.none)

/-- The decoder inverting `nullEnc`: the `null` bytes decode to `false`,
anything else to `true`, never an error. -/
def nullDec : List Nat → Bool → Bool × Option Unit :=
  fun d _ => (!(d == nullBytes), Option.none)

/-- An example codec whose encodings never collide with the `null` literal:
`true` encodes to byte 49, `false` to byte 48. -/
def boolEnc : Bool → List Nat × Option Unit :=
  fun v => (if v then [49] else [48], Option.none)

/-- The decoder inverting `boolEnc`. -/
def boolDec : List Nat → Bool → Bool × Option Unit :=
  fun d _ => (d == [49], Option.none)

/-- A model of Go's IEEE-754 `float64` as far as `==` is concerned: a NaN
flag and an abstracted numeric payload.  `==` is false whenever either side
is NaN, else payload equality. -/
structure GoFloat where
  isNaN : Bool
  payload : Int

deriving instance DecidableEq for GoFloat

instance : Inhabited GoFloat := ⟨⟨false, 0⟩⟩

/-- Go's `==` on `float64`: non-reflexive at NaN. -/
def goFloatEq (x y : GoFloat) : Bool :=
  !x.isNaN && !y.isNaN && x.payload == y.payload

/-- A NaN value of the float model. -/
def goNaN : GoFloat := ⟨true, 0⟩

/-- The data-model invariant: a None-tagged option carries the zero value of
`T` in its `value` field. -/
abbrev ZeroNone {T : Type} [Inhabited T] (o : Opt T) : Prop :=
  o.ok = false → o.value = default

/-- C6: Map satisfies the functor laws — mapping the identity function over
`Some v` gives `Some v`, and mapping `f` then `g` over any option equals
mapping their composition. -/
theorem map_functor_laws {T U V : Type} [Inhabited T] [Inhabited U] [Inhabited V]
    (v : T) (o : Opt T) (f : T → U) (g : U → V) :
    Map (Some v) (fun x => x) = Some v
    ∧ Map (Map o f) g = Map o (fun x => g (f x)) := by
  refine ⟨rfl, ?_⟩
  cases o with
  | mk val ok => cases ok <;> rfl

/-- C7: AndThen satisfies the monad left laws — `AndThen (Some v) f = f v`,
`AndThen (None) f = None`, and on None the callback is never invoked: the
instrumented call list is empty and the result does not depend on the
callback. -/
theorem andthen_monad_laws {T U : Type} [Inhabited T] [Inhabited U]
    (v : T) (o : Opt T) (f g : T → Opt U) :
    AndThen (Some v) f = f v
    ∧ AndThen (None T) f = None U
    ∧ (AndThenCalls o f).1 = AndThen o f
    ∧ (AndThenCalls (None T) f).2 = []
    ∧ AndThen (None T) f = AndThen (None T) g := by
  refine ⟨rfl, rfl, ?_, rfl, rfl⟩
  cases o with
  | mk val ok => cases ok <;> rfl

/-- C8: Filter on `Some v` keeps the option exactly when the predicate holds
of `v` and otherwise gives None; Filter on None gives None with the predicate
never invoked; on Some the predicate is evaluated exactly once (the
instrumented call list is `[v]`). -/
theorem filter_spec {T : Type} [Inhabited T] (v : T) (o : Opt T) (p : T → Bool) :
    Filter (Some v) p = (if p v then Some v else None T)
    ∧ Filter (None T) p = None T
    ∧ (FilterCalls o p).1 = Filter o p
    ∧ (FilterCalls (None T) p).2 = []
    ∧ (FilterCalls (Some v) p).2 = [v] := by
  refine ⟨?_, ?_, ?_, rfl, ?_⟩
  · by_cases h : p v = true <;> simp [Filter, Opt.Filter, Some, h, None]
  · simp [Filter, Opt.Filter, None]
  · cases o with
    | mk val ok =>
      cases ok
      · rfl
      · by_cases h : p val = true <;> simp [Filter, Opt.Filter, FilterCalls, h]
  · by_cases h : p v = true <;> simp [FilterCalls, Some, h]

/-- C5: Equals is true exactly when both options are None or both are Some
with contained values equal under the type's native equality; instantiated
at the float model, `Equals goFloatEq (Some NaN) (Some NaN)` is false
(non-reflexivity preserved) while `Equals goFloatEq None None` is true. -/
theorem equals_spec {T : Type} (eq : T → T → Bool) (a b : Opt T) :
    (Equals eq a b = true ↔
      ((a.ok = false ∧ b.ok = false)
        ∨ (a.ok = true ∧ b.ok = true ∧ eq a.value b.value = true)))
    ∧ Equals goFloatEq (Some goNaN) (Some goNaN) = false
    ∧ Equals goFloatEq (None GoFloat) (None GoFloat) = true := by
  refine ⟨?_, by decide, by decide⟩
  cases a with
  | mk av ao =>
    cases b with
    | mk bv bo => cases ao <;> cases bo <;> simp [Equals]

/-- C2 (amended): Unwrap on `Some v` returns `v`; Unwrap on None fails
fatally (the panic branch of the embedding), and the panic message is
`gopt: Unwrap called on None` — the fixed text prefixed with the package
name. -/
theorem unwrap_spec {T : Type} [Inhabited T] (v : T) :
    (Some v).Unwrap = Except.ok v
    ∧ (None T).Unwrap = Except.error "gopt: Unwrap called on None" :=
  ⟨rfl, rfl⟩

/-- C2 counterexample: the panic message of Unwrap on None is the
package-prefixed string `gopt: Unwrap called on None`, which is not the
claimed string `Unwrap called on None`. -/
theorem unwrap_message_counterexample :
    (None Nat).Unwrap = Except.error "gopt: Unwrap called on None"
    ∧ "gopt: Unwrap called on None" ≠ "Unwrap called on None" :=
  ⟨rfl, by decide⟩

/-- C10: None is a two-sided identity for Or and Or is associative.  The
right-identity direction holds for every option satisfying the data-model
invariant that a None option carries the zero value (every option the public
API can produce does, by `zero_value_invariant`); the left identity and
associativity hold outright. -/
theorem or_monoid_laws {T : Type} [Inhabited T] (o a b c : Opt T)
    (ho : ZeroNone o) :
    Or (None T) o = o ∧ Or o (None T) = o ∧ Or (Or a b) c = Or a (Or b c) := by
  refine ⟨rfl, ?_, ?_⟩
  · cases h : o.ok with
    | true => simp [Or, Opt.Or, h]
    | false =>
      have hv := ho h
      cases o with
      | mk val ok =>
        simp only at hv h
        subst hv
        subst h
        rfl
  · cases a with
    | mk av ao =>
      cases b with
      | mk bv bo => cases ao <;> cases bo <;> rfl

/-- C10 witness: the monoid laws at concrete options. -/
theorem or_monoid_laws_witness :
    Or (None Nat) (Some 1) = Some 1
    ∧ Or (Some 1) (None Nat) = Some 1
    ∧ Or (Or (Some 2) (None Nat)) (Some 3) = Or (Some 2) (Or (None Nat) (Some 3)) :=
  or_monoid_laws (Some 1) (Some 2) (None Nat) (Some 3) (by decide)

/-- C4: UnmarshalOption returns None with no error on input whose trimmed
form is empty or the `null` literal, and then the decoder is not invoked
(instrumented call list empty); otherwise the decoder is invoked exactly once
on the full untrimmed input and a successful decode is wrapped as Some; the
JSON empty string decodes to `Some ""` under a string decoder, not None. -/
theorem unmarshal_option_spec {T E : Type} [Inhabited T] (data : List Nat)
    (dec : List Nat → T → T × Option E) :
    (UnmarshalOptionCalls data dec).1 = UnmarshalOption data dec
    ∧ (nullOrEmpty data = true → UnmarshalOption data dec = (None T, Option.none))
    ∧ (nullOrEmpty data = false → ∀ t, dec data default = (t, Option.none) →
        UnmarshalOption data dec = (Some t, Option.none))
    ∧ (UnmarshalOptionCalls data dec).2
        = (if nullOrEmpty data then [] else [data])
    ∧ UnmarshalOption [34, 34] stringDecoder = (Some ([] : List Nat), Option.none) := by
  refine ⟨?_, ?_, ?_, ?_, by decide⟩
  · by_cases h : nullOrEmpty data = true
    · simp [UnmarshalOptionCalls, UnmarshalOption, h]
    · have h' : nullOrEmpty data = false := by simpa using h
      cases hd : dec data default with
      | mk t e =>
        cases e <;> simp [UnmarshalOptionCalls, UnmarshalOption, h', hd]
  · intro h
    simp [UnmarshalOption, h]
  · intro h t ht
    simp [UnmarshalOption, h, ht]
  · by_cases h : nullOrEmpty data = true
    · simp [UnmarshalOptionCalls, h]
    · have h' : nullOrEmpty data = false := by simpa using h
      cases hd : dec data default with
      | mk t e =>
        cases e <;> simp [UnmarshalOptionCalls, h', hd]

/-- C1 counterexample: on input `42` (not null, not empty) with a decoder
that always fails, UnmarshalJSON returns the decode error yet leaves the
receiver flagged as present — the resulting option is not None, refuting the
claim for the native protocol hook. -/
theorem unmarshaljson_error_counterexample :
    (failDec [52, 50] 0).2 = Option.some ()
    ∧ nullOrEmpty [52, 50] = false
    ∧ ((None Nat).UnmarshalJSON [52, 50] failDec).2 = Option.some ()
    ∧ ((None Nat).UnmarshalJSON [52, 50] failDec).1.IsNone = false := by
  decide

/-- C1 (amended): on input whose trimmed form is neither empty nor `null`,
when the decoder fails, UnmarshalOption returns the decode error together
with None, while UnmarshalJSON returns the decode error but leaves the
receiver's presence flag set to true (it is set before decoding), so the
receiver is not None. -/
theorem decode_failure_propagation {T E : Type} [Inhabited T] (data : List Nat)
    (dec : List Nat → T → T × Option E) (o : Opt T) (e : E)
    (hne : nullOrEmpty data = false)
    (hfail : ∀ t, (dec data t).2 = Option.some e) :
    UnmarshalOption data dec = (None T, Option.some e)
    ∧ (o.UnmarshalJSON data dec).2 = Option.some e
    ∧ (o.UnmarshalJSON data dec).1.ok = true := by
  refine ⟨?_, ?_, ?_⟩
  · cases hd : dec data default with
    | mk t err =>
      have := hfail default
      rw [hd] at this
      simp only at this
      subst this
      simp [UnmarshalOption, hne, hd]
  · cases hd : dec data o.value with
    | mk t err =>
      have := hfail o.value
      rw [hd] at this
      simp only at this
      subst this
      simp [Opt.UnmarshalJSON, hne, hd]
  · cases hd : dec data o.value with
    | mk t err =>
      simp [Opt.UnmarshalJSON, hne, hd, Some]

/-- C1 witness: the amended behavior at the concrete input `42` with the
always-failing decoder and receiver `Some 7`. -/
theorem decode_failure_propagation_witness :
    UnmarshalOption [52, 50] failDec = (None Nat, Option.some ())
    ∧ ((Some 7).UnmarshalJSON [52, 50] failDec).2 = Option.some ()
    ∧ ((Some 7).UnmarshalJSON [52, 50] failDec).1.ok = true :=
  decode_failure_propagation [52, 50] failDec (Some 7) () (by decide) (fun _ => rfl)

/-- C3 counterexample: a codec whose decoder inverts its encoder but in which
`false` encodes to the `null` literal; decoding the encoding of `Some false`
yields None, not `Some false`, refuting the round-trip claim as stated. -/
theorem roundtrip_counterexample :
    nullDec (nullEnc false).1 false = (false, Option.none)
    ∧ nullDec (nullEnc true).1 false = (true, Option.none)
    ∧ UnmarshalOption (MarshalOption (Some false) nullEnc).1 nullDec
        = (None Bool, Option.none)
    ∧ None Bool ≠ Some false := by
  decide

/-- C3 (amended): for a codec whose decoder inverts its encoder, and a value
whose encoding succeeds and is not empty or the `null` literal after
trimming, decoding the encoding of `Some v` yields `Some v`; decoding the
encoding of None yields None outright. -/
theorem roundtrip_spec {T E : Type} [Inhabited T]
    (enc : T → List Nat × Option E) (dec : List Nat → T → T × Option E) (v : T)
    (hinv : ∀ w d, enc w = (d, Option.none) → dec d default = (w, Option.none))
    (hv : (enc v).2 = Option.none)
    (hnn : nullOrEmpty (enc v).1 = false) :
    UnmarshalOption (MarshalOption (Some v) enc).1 dec = (Some v, Option.none)
    ∧ UnmarshalOption (MarshalOption (None T) enc).1 dec = (None T, Option.none) := by
  constructor
  · have hm : MarshalOption (Some v) enc = enc v := rfl
    have henc : enc v = ((enc v).1, Option.none) := by
      rw [← hv]
    have hd := hinv v (enc v).1 henc
    rw [hm]
    simp [UnmarshalOption, hnn, hd]
  · have hm : MarshalOption (None T) enc = (nullBytes, Option.none) := rfl
    have hn : nullOrEmpty nullBytes = true := by decide
    rw [hm]
    simp [UnmarshalOption, hn]

/-- C3 witness: the round trip at the concrete non-colliding boolean codec. -/
theorem roundtrip_spec_witness :
    UnmarshalOption (MarshalOption (Some true) boolEnc).1 boolDec
      = (Some true, Option.none)
    ∧ UnmarshalOption (MarshalOption (None Bool) boolEnc).1 boolDec
      = (None Bool, Option.none) :=
  roundtrip_spec boolEnc boolDec true
    (by
      intro w d h
      cases w <;> (injection h with h1 _; subst h1; decide))
    (by decide) (by decide)

/-- C9: every constructor establishes, and every combinator preserves, the
invariant that a None option carries the zero value of `T` (callback-supplied
options assumed to satisfy it); consequently Get is total, returning the
zero value with `false` on None and the contained value with `true` on
Some. -/
theorem zero_value_invariant {T U E : Type} [Inhabited T] [Inhabited U]
    (v : T) (b : Bool) (p : Option T) (err : Option E)
    (o a c : Opt T) (oo : Opt (Opt T)) (u : Opt U)
    (f : T → U) (fo : T → Opt U) (fb : Unit → Opt T) (pr : T → Bool)
    (tm : T → U × Option E) (sf : T → Unit)
    (data : List Nat) (dec : List Nat → T → T × Option E)
    (ho : ZeroNone o) (ha : ZeroNone a) (hc : ZeroNone c)
    (hoo : ZeroNone oo.value) (hfo : ∀ x, ZeroNone (fo x)) (hfb : ZeroNone (fb ())) :
    ZeroNone (Some v) ∧ ZeroNone (None T) ∧ ZeroNone (FromPtr p)
    ∧ ZeroNone (FromTuple v b) ∧ ZeroNone (Try v err) ∧ ZeroNone (Cond b v)
    ∧ ZeroNone (Map o f) ∧ ZeroNone (AndThen o fo) ∧ ZeroNone (Filter o pr)
    ∧ ZeroNone (Or a c) ∧ ZeroNone (OrElse o fb) ∧ ZeroNone (Flatten oo)
    ∧ ZeroNone (Zip o u) ∧ ZeroNone (TryMap o tm).1
    ∧ ZeroNone (UnmarshalOption data dec).1
    ∧ ZeroNone ((o.UnmarshalJSON data dec).1)
    ∧ ZeroNone (o.Tap sf)
    ∧ (o.ok = false → o.Get = (default, false))
    ∧ (o.ok = true → o.Get = (o.value, true)) := by
  obtain ⟨val, ok⟩ := o
  refine ⟨?_, ?_, ?_, ?_, ?_, ?_, ?_, ?_, ?_, ?_, ?_, ?_, ?_, ?_, ?_, ?_, ?_, ?_, ?_⟩
  · intro h
    simp [Some] at h
  · intro _
    rfl
  · cases p with
    | none => intro _; rfl
    | some w => intro h; simp [FromPtr] at h
  · cases b <;> intro h <;> simp [FromTuple] at h ⊢
  · cases err <;> intro h <;> simp [Try] at h ⊢
  · cases b <;> intro h <;> simp [Cond] at h ⊢
  · cases ok <;> intro h <;> simp [Map, None, Some] at h ⊢
  · cases ok
    · intro _
      rfl
    · simpa [AndThen] using hfo val
  · cases ok
    · intro _
      rfl
    · by_cases hp : pr val = true
      · intro h
        simp [Filter, Opt.Filter, hp] at h
      · intro _
        simp [Filter, Opt.Filter, hp, None]
  · cases ha' : a.ok
    · have := ha ha'
      obtain ⟨av, ao⟩ := a
      simp only at ha' this
      subst ha' this
      simpa [Or, Opt.Or] using hc
    · obtain ⟨av, ao⟩ := a
      simp only at ha'
      subst ha'
      intro h
      simp [Or, Opt.Or] at h
  · cases ok
    · simpa [OrElse, Opt.OrElse] using hfb
    · intro h
      simp [OrElse, Opt.OrElse] at h
  · cases hoo' : oo.ok
    · obtain ⟨ov, os⟩ := oo
      simp only at hoo'
      subst hoo'
      intro _
      rfl
    · obtain ⟨ov, os⟩ := oo
      simp only at hoo' hoo
      subst hoo'
      simpa [Flatten] using hoo
  · cases ok <;> cases hu : u.ok
    all_goals obtain ⟨uv, us⟩ := u
    all_goals simp only at hu
    all_goals subst hu
    all_goals intro h
    all_goals simp [Zip, None, Some] at h ⊢
  · cases ok
    · intro _
      rfl
    · rcases htm : tm val with ⟨uu, ee⟩
      cases ee <;> intro h <;> simp [TryMap, htm, None, Some] at h ⊢
  · by_cases hn : nullOrEmpty data = true
    · intro _
      simp [UnmarshalOption, hn, None]
    · have hn' : nullOrEmpty data = false := by simpa using hn
      rcases hd : dec data default with ⟨t, e⟩
      cases e <;> intro h <;> simp [UnmarshalOption, hn', hd, None, Some] at h ⊢
  · by_cases hn : nullOrEmpty data = true
    · intro _
      simp [Opt.UnmarshalJSON, hn]
    · have hn' : nullOrEmpty data = false := by simpa using hn
      rcases hd : dec data val with ⟨t, e⟩
      intro h
      simp [Opt.UnmarshalJSON, hn', hd] at h
  · simpa [Opt.Tap] using ho
  · intro h
    have := ho h
    simp only at this h
    subst this h
    rfl
  · intro h
    simp only at h
    subst h
    rfl

/-- C9 witness: the invariant at a concrete combinator output, with all
assumptions discharged at concrete options and callbacks. -/
theorem zero_value_invariant_witness :
    ZeroNone (Map (Some (5 : Nat)) (fun x => x + 1)) :=
  (zero_value_invariant (U := Nat) (E := Unit) 5 true (Option.some 3) Option.none
    (Some 5) (None Nat) (Some 2) (Some (Some 4)) (Some 1)
    (fun x => x + 1) (fun x => Some x) (fun _ => None Nat) (fun x => x == 0)
    (fun x => (x, Option.none)) (fun _ => ()) [52] failDec
    (by decide) (by decide) (by decide) (by decide)
    (fun x h => by simp [Some] at h) (by decide)).2.2.2.2.2.2.1

end Gopt
